import Mathlib

/-!
Verification of the sunfyre front end: a shallow embedding of the
hand-written lexer (`lexer.cpp`) and of the expression AST node model
(`cci/ast/expr.hpp`), with theorems checking the specification's claims
against the embedded code.

The source buffer is modelled as a `List Char`; the C++ `const char*`
iterators into it become `Nat` indices (`begin`/`end` of a range are a
pair `b e : Nat` with the intended reading `[b, e)`).  A `string_view`
over the buffer becomes a pair of indices.  All recursion is structural
(the scanning loop takes explicit fuel), so every definition evaluates
inside the kernel on concrete inputs.
-/

/-- The token kinds of `TokenType` (lexer.hpp), in source order. -/
inductive TokenType where
  | Increment | Decrement | RightArrow | Assign | Plus | Minus | Times | Divide | Percent
  | PlusAssign | MinusAssign | TimesAssign | DivideAssign | ModuloAssign
  | GreaterThan | LessThan | GreaterEqual | LessEqual | EqualsTo | NotEqualTo
  | LogicalNot | LogicalAnd | LogicalOr
  | BitwiseNot | BitwiseAnd | BitwiseOr | BitwiseXor | BitwiseAndAssign | BitwiseOrAssign
  | BitwiseXorAssign | BitwiseRightShift | BitwiseLeftShift
  | BitwiseRightShiftAssign | BitwiseLeftShiftAssign
  | LeftParen | RightParen | LeftBraces | RightBraces | LeftCurlyBraces | RightCurlyBraces
  | StringMark | CharMark | Dot | Comma | Colon | Semicolon | QuestionMark
  | If | Else | For | While | Do | Typedef | Break | Case | Continue | Default
  | Enum | Extern | Goto | Inline | Register | Restrict | Return | Sizeof | Static
  | Auto | Struct | Switch | Union
  | CharType | ShortType | IntType | LongType | FloatType | DoubleType | VoidType
  | Signed | Unsigned | Volatile | Const
  | Identifier | IntegerConstant | FloatConstant | CharConstant | StringConstant
  deriving DecidableEq

/-- A token: `TokenData(type, begin, end)` holds a kind and a byte span
`[start, stop)` into the source buffer (the C++ stores a `string_view`;
here the view is the index pair). -/
structure TokenData where
  type : TokenType
  start : Nat
  stop : Nat
  deriving DecidableEq

/-- The `TOKEN_SYMBOLS` table: operator/punctuation kinds with their exact text. -/
def TOKEN_SYMBOLS : List (TokenType × String) :=
  [ (TokenType.Increment,        "++"),
    (TokenType.Decrement,        "--"),
    (TokenType.RightArrow,       "->"),
    (TokenType.Assign,           "="),
    (TokenType.Plus,             "+"),
    (TokenType.Minus,            "-"),
    (TokenType.Times,            "*"),
    (TokenType.Divide,           "/"),
    (TokenType.Percent,          "%"),
    (TokenType.PlusAssign,       "+="),
    (TokenType.MinusAssign,      "-="),
    (TokenType.TimesAssign,      "*="),
    (TokenType.DivideAssign,     "/="),
    (TokenType.ModuloAssign,     "%="),
    (TokenType.GreaterThan,      ">"),
    (TokenType.LessThan,         "<"),
    (TokenType.GreaterEqual,     ">="),
    (TokenType.LessEqual,        "<="),
    (TokenType.EqualsTo,         "=="),
    (TokenType.NotEqualTo,       "!="),
    (TokenType.LogicalNot,       "!"),
    (TokenType.LogicalAnd,       "&&"),
    (TokenType.LogicalOr,        "||"),
    (TokenType.BitwiseNot,              "~"),
    (TokenType.BitwiseAnd,              "&"),
    (TokenType.BitwiseOr,               "|"),
    (TokenType.BitwiseXor,              "^"),
    (TokenType.BitwiseAndAssign,        "&="),
    (TokenType.BitwiseOrAssign,         "|="),
    (TokenType.BitwiseXorAssign,        "^="),
    (TokenType.BitwiseRightShift,       ">>"),
    (TokenType.BitwiseLeftShift,        "<<"),
    (TokenType.BitwiseRightShiftAssign, ">>="),
    (TokenType.BitwiseLeftShiftAssign,  "<<="),
    (TokenType.LeftParen,        "("),
    (TokenType.RightParen,       ")"),
    (TokenType.LeftBraces,       "["),
    (TokenType.RightBraces,      "]"),
    (TokenType.LeftCurlyBraces,  "\x7b"),
    (TokenType.RightCurlyBraces, "\x7d"),
    (TokenType.StringMark,       "\""),
    (TokenType.CharMark,         "'"),
    (TokenType.Dot,              "."),
    (TokenType.Comma,            ","),
    (TokenType.Colon,            ":"),
    (TokenType.Semicolon,        ";"),
    (TokenType.QuestionMark,     "?") ]

/-- The `TOKEN_RESERVED_NAMES` table: keyword kinds with their exact text. -/
def TOKEN_RESERVED_NAMES : List (TokenType × String) :=
  [ (TokenType.If,             "if"),
    (TokenType.Else,           "else"),
    (TokenType.For,            "for"),
    (TokenType.While,          "while"),
    (TokenType.Do,             "do"),
    (TokenType.Typedef,        "typedef"),
    (TokenType.Break,          "break"),
    (TokenType.Case,           "case"),
    (TokenType.Continue,       "continue"),
    (TokenType.Default,        "default"),
    (TokenType.Enum,           "enum"),
    (TokenType.Extern,         "extern"),
    (TokenType.Goto,           "goto"),
    (TokenType.Inline,         "inline"),
    (TokenType.Register,       "register"),
    (TokenType.Restrict,       "restrict"),
    (TokenType.Return,         "return"),
    (TokenType.Sizeof,         "sizeof"),
    (TokenType.Static,         "static"),
    (TokenType.Auto,           "auto"),
    (TokenType.Struct,         "struct"),
    (TokenType.Switch,         "switch"),
    (TokenType.Union,          "union"),
    (TokenType.CharType,       "char"),
    (TokenType.ShortType,      "short"),
    (TokenType.IntType,        "int"),
    (TokenType.LongType,       "long"),
    (TokenType.FloatType,      "float"),
    (TokenType.DoubleType,     "double"),
    (TokenType.VoidType,       "void"),
    (TokenType.Signed,         "signed"),
    (TokenType.Unsigned,       "unsigned"),
    (TokenType.Volatile,       "volatile"),
    (TokenType.Const,          "const") ]

/-- `is_special`: the fixed punctuation/operator starting characters.
Note that `.`, `"` and `'` are commented out in the source and hence
are NOT special. -/
def is_special (c : Char) : Bool :=
  c == '=' || c == '+' || c == '-' || c == '*' || c == '/' || c == '%' ||
  c == '>' || c == '<' || c == '!' || c == '&' || c == '|' || c == '~' ||
  c == '^' || c == '(' || c == ')' || c == '[' || c == ']' ||
  c == '\x7b' || c == '\x7d' ||
  c == ',' || c == ':' || c == ';' || c == '?'

/-- `is_space`: blank and horizontal tab only. -/
def is_space (c : Char) : Bool := c == ' ' || c == '\t'

/-- `is_white`: whites are used to tell apart different tokens. -/
def is_white (c : Char) : Bool := is_space c || is_special c

/-- `is_digit`. -/
def is_digit (c : Char) : Bool := decide ('0' ≤ c) && decide (c ≤ '9')

/-- `is_hexdigit`. -/
def is_hexdigit (c : Char) : Bool :=
  is_digit c || (decide ('A' ≤ c) && decide (c ≤ 'F')) || (decide ('a' ≤ c) && decide (c ≤ 'f'))

/-- `is_octdigit`. -/
def is_octdigit (c : Char) : Bool := decide ('0' ≤ c) && decide (c ≤ '7')

/-- `is_alpha`: letters and underscore. -/
def is_alpha (c : Char) : Bool :=
  (decide ('A' ≤ c) && decide (c ≤ 'Z')) || (decide ('a' ≤ c) && decide (c ≤ 'z')) || c == '_'

/-- `is_alphanum`. -/
def is_alphanum (c : Char) : Bool := is_alpha c || is_digit c

/-- `is_constant`: a digit or the start of a quote-delimited literal. -/
def is_constant (c : Char) : Bool := is_digit c || c == '\'' || c == '\"'

/-- Read the buffer at index `i` (`*it` in the source); in every reachable
use the index is in bounds, so the default is irrelevant. -/
def charAt (s : List Char) (i : Nat) : Char := s.getD i ' '

/-- The slice `[b, e)` of the buffer: the characters a `string_view`
with those bounds designates. -/
def sliceOf (s : List Char) (b e : Nat) : List Char := (s.take e).drop b

/-- Structural worker for `findIdxFrom`: `n` is the remaining length of
the range being searched. -/
def findIdxFromGo (s : List Char) (p : Char → Bool) : Nat → Nat → Nat
  | b, 0 => b
  | b, n + 1 => if p (charAt s b) then b else findIdxFromGo s p (b + 1) n

/-- `std::find_if(begin, end, p)` over the index range `[b, e)`: the least
index in the range whose character satisfies `p`, or `e` when none does. -/
def findIdxFrom (s : List Char) (p : Char → Bool) (b e : Nat) : Nat :=
  findIdxFromGo s p b (e - b)

/-- `find_next_token(begin, end, pred)`: `first` is the first index whose
character satisfies `pred`, `last` the first index after `first` whose
character does not; the maximal run `[first, last)` is returned, or
`none` when no character satisfies `pred`. -/
def find_next_token (s : List Char) (b e : Nat) (pred : Char → Bool) : Option (Nat × Nat) :=
  let first := findIdxFrom s pred b e
  let last := findIdxFrom s (fun c => ! pred c) first e
  if first ≠ e then some (first, last) else none

/-- The one-predicate overload of `find_next_token`: the next maximal run
of non-white characters. -/
def find_next_token_white (s : List Char) (b e : Nat) : Option (Nat × Nat) :=
  find_next_token s b e (fun c => ! is_white c)

/-- `char_size_in_bytes` inside `lexer_parse_char_literal`: the number of
characters of the slice `[b, e)` that are not the escape introducer. -/
def char_size_in_bytes (s : List Char) (b e : Nat) : Nat :=
  ((sliceOf s b e).filter (fun c => c != '\\')).length

/-- `lexer_parse_char_literal(lexer, begin, end)`.  Returns the emitted
tokens (the source pushes them into `lexer.tokens`) together with the
returned cursor.  `none` models the `assert(first != end)` failing.
The source computes the view `token` as
`string_view(first, distance(first, next(last)))`; with indices its
one-past-the-end position is `last + 1`, even when `last = e` (in the
source, `std::next` applied to the end iterator). -/
def lexer_parse_char_literal (s : List Char) (b e : Nat) : Option (List TokenData × Nat) :=
  if b = e then some ([], e)
  else
    let first := findIdxFrom s (fun c => c == '\'') b e
    if first = e then none
    else
      let last := findIdxFrom s (fun c => c == '\'') (first + 1) e
      let tke := last + 1
      if tke = e then
        -- missing terminating quote report (TODO in the source); skip to a white
        some ([], findIdxFrom s is_white first e)
      else if tke - first = 2 then
        -- empty char literal report (TODO in the source)
        some ([], tke)
      else
        -- the count feeds only the multibyte warning (assert(true)), no effect
        let _warn := decide (char_size_in_bytes s (first + 1) tke > 1)
        some ([⟨TokenType.CharConstant, first, tke⟩], tke)

/-- `lexer_parse_string_literal(lexer, begin, end)`: symmetric to the
char-literal scanner with `"` delimiters and no size count. -/
def lexer_parse_string_literal (s : List Char) (b e : Nat) : Option (List TokenData × Nat) :=
  if b = e then some ([], e)
  else
    let first := findIdxFrom s (fun c => c == '\"') b e
    if first = e then none
    else
      let last := findIdxFrom s (fun c => c == '\"') (first + 1) e
      let tke := last + 1
      if tke = e then
        some ([], findIdxFrom s is_white first e)
      else if tke - first = 2 then
        some ([], tke)
      else
        some ([⟨TokenType.StringConstant, first, tke⟩], tke)

/-- Structural worker for `is_integer`'s loop: `n` is the remaining length
of `[it, e)`.  A `.` stops the classification silently (it might be a
float constant); any other non-digit also yields false (the diagnostic is
a TODO in the source). -/
def is_integerGo (s : List Char) (hp : Bool) : Nat → Nat → Bool
  | _, 0 => true
  | it, n + 1 =>
    let c := charAt s it
    if (if hp then is_hexdigit c else is_digit c) then is_integerGo s hp (it + 1) n
    else if c == '.' then false
    else false

/-- The `is_integer` lambda of `lexer_parse_constant` over the token range
`[b, e)`: an optional `0x`/`0X` prefix (only when the run is longer than
two characters), then digits of the corresponding base. -/
def is_integer (s : List Char) (b e : Nat) : Bool :=
  let has_hex_prefix :=
    decide (e - b > 2) && (charAt s b == '0') && (charAt s (b + 1) == 'x' || charAt s (b + 1) == 'X')
  is_integerGo s has_hex_prefix (if has_hex_prefix then b + 2 else b) (e - (if has_hex_prefix then b + 2 else b))

/-- Structural worker for `is_float`'s loop: every position other than
`dot_it` and `f_suffix_it` must hold a digit. -/
def is_floatGo (s : List Char) (dot_it f_suffix_it : Nat) : Nat → Nat → Bool
  | _, 0 => true
  | it, n + 1 =>
    if it == dot_it || it == f_suffix_it then is_floatGo s dot_it f_suffix_it (it + 1) n
    else if is_digit (charAt s it) then is_floatGo s dot_it f_suffix_it (it + 1) n
    else false

/-- The `is_float` lambda of `lexer_parse_constant` over `[b, e)`:
`dot_it` is the first `.`, `f_suffix_it` the first `f`/`F` at or after it;
a suffix not in final position rejects, and every other character must be
a digit. -/
def is_float (s : List Char) (b e : Nat) : Bool :=
  let dot_it := findIdxFrom s (fun c => c == '.') b e
  let f_suffix_it := findIdxFrom s (fun c => c == 'f' || c == 'F') dot_it e
  if f_suffix_it ≠ e && f_suffix_it + 1 ≠ e then false
  else is_floatGo s dot_it f_suffix_it b (e - b)

/-- `lexer_parse_constant(lexer, begin, end)`: the candidate token is the
next maximal non-white run; a leading quote dispatches to the literal
scanners, otherwise the run is classified as integer, then float, else
nothing is emitted.  `none` models `.value()` on an empty optional. -/
def lexer_parse_constant (s : List Char) (b e : Nat) : Option (List TokenData × Nat) :=
  if b = e then some ([], e)
  else
    match find_next_token_white s b e with
    | none => none
    | some (tb, te) =>
      if charAt s tb == '\'' then lexer_parse_char_literal s b e
      else if charAt s tb == '\"' then lexer_parse_string_literal s b e
      else if is_integer s tb te then some ([⟨TokenType.IntegerConstant, tb, te⟩], te)
      else if is_float s tb te then some ([⟨TokenType.FloatConstant, tb, te⟩], te)
      else some ([], te)

/-- Structural worker for `is_identifier`'s loop over `[it, e)`. -/
def is_identifierGo (s : List Char) : Nat → Nat → Bool
  | _, 0 => true
  | it, n + 1 => if is_alphanum (charAt s it) then is_identifierGo s (it + 1) n else false

/-- The `is_identifier` lambda of `lexer_parse_identifier` over `[b, e)`:
an alphabetic first character, alphanumeric rest. -/
def is_identifier (s : List Char) (b e : Nat) : Bool :=
  if ! is_alpha (charAt s b) then false
  else is_identifierGo s (b + 1) (e - (b + 1))

/-- `lexer_parse_identifier(lexer, begin, end)`: the candidate token is the
next maximal alphanumeric run; when it is a lexically valid identifier it
is compared by exact text against every entry of `TOKEN_RESERVED_NAMES`
(each match emits that keyword kind, in table order), and a generic
Identifier token is emitted when no entry matched. -/
def lexer_parse_identifier (s : List Char) (b e : Nat) : Option (List TokenData × Nat) :=
  if b = e then some ([], e)
  else
    match find_next_token s b e is_alphanum with
    | none => none
    | some (tb, te) =>
      if is_identifier s tb te then
        let hits := TOKEN_RESERVED_NAMES.filter (fun p => sliceOf s tb te == p.2.data)
        if hits.isEmpty then some ([⟨TokenType.Identifier, tb, te⟩], te)
        else some (hits.map (fun p => ⟨p.1, tb, te⟩), te)
      else some ([], te)

/-- The scanning loop of `lexer_tokenize_text`.  The loop takes explicit
fuel (the source has none and may fail to terminate); `none` means either
the fuel ran out with the loop still running, or that the loop reached a
state the source's semantics does not define: a cursor strictly past the
end of the buffer, where `it != end` still holds and `*it` dereferences
out of bounds, or an aborted scanning routine. -/
def tokenizeLoop (s : List Char) : Nat → Nat → List TokenData → Option (List TokenData)
  | 0, _, _ => none
  | fuel + 1, it, acc =>
    if it = s.length then some acc
    else if s.length < it then none
    else
      let c := charAt s it
      if is_constant c then
        match lexer_parse_constant s it s.length with
        | none => none
        | some (ts, it2) => tokenizeLoop s fuel it2 (acc ++ ts)
      else if is_alphanum c then
        match lexer_parse_identifier s it s.length with
        | none => none
        | some (ts, it2) => tokenizeLoop s fuel it2 (acc ++ ts)
      else
        match find_next_token_white s it s.length with
        | some (tb, _) => tokenizeLoop s fuel tb acc
        | none => some acc

/-- `lexer_tokenize_text(text)`: run the scanning loop from the start of
the buffer with an empty token vector. -/
def lexer_tokenize_text (fuel : Nat) (text : List Char) : Option (List TokenData) :=
  tokenizeLoop text fuel 0 []

/-- Modelled from the spec: the qualified-type collaborator (`QualType`,
from `cci/ast/type.hpp`, which is not among the repository files): a type
paired with qualifiers (const/volatile).  The only feature of it the
expression-node claims use is the `get_as<PointerType>` query, which
succeeds exactly on pointer types. -/
inductive CType where
  | pointer (pointee : CType)
  | builtin (id : Nat)
  deriving DecidableEq

/-- Modelled from the spec: a type plus qualifiers, compared by value. -/
structure QualType where
  ty : CType
  is_const : Bool := false
  is_volatile : Bool := false
  deriving DecidableEq

/-- `ty->get_as<PointerType>()`: a pointer view of the type when its shape
is a pointer, and a null result (`none`) otherwise. -/
def QualType.getAsPointerType (t : QualType) : Option CType :=
  match t.ty with
  | CType.pointer pointee => some pointee
  | CType.builtin _ => none

/-- `ExprValueKind`: the expression categories. -/
inductive ExprValueKind where
  | LValue
  | RValue
  deriving DecidableEq

/-- `ExprClass`: the closed set of expression variants. -/
inductive ExprClass where
  | IntegerLiteral
  | CharacterConstant
  | StringLiteral
  | ParenExpr
  | ArraySubscript
  | ImplicitCast
  deriving DecidableEq

/-- `syntax::ByteSpan`: a byte range `[start, stop)` (`ByteLoc` is a byte
offset, modelled as `Nat`; the C++ field `end` is `stop` here). -/
structure ByteSpan where
  start : Nat
  stop : Nat
  deriving DecidableEq

/-- The fields of the abstract `Expr` base: variant tag, value kind,
qualified type and source range. -/
structure Expr where
  ec : ExprClass
  vk : ExprValueKind
  ty : QualType
  range : ByteSpan
  deriving DecidableEq

/-- `IntegerLiteral`: an `Expr` plus the 64-bit value (the value is only
stored, never computed with, so it is a plain `Nat` here). -/
structure IntegerLiteral where
  toExpr : Expr
  val : Nat
  deriving DecidableEq

/-- `IntegerLiteral::create`: the constructor fixes the tag and makes the
node an RValue of the given type and span. -/
def IntegerLiteral.create (value : Nat) (ty : QualType) (source_span : ByteSpan) :
    IntegerLiteral :=
  { toExpr := { ec := ExprClass.IntegerLiteral, vk := ExprValueKind.RValue,
                ty := ty, range := source_span }
    val := value }

/-- `ParenExpr`: an `Expr` plus the inner expression and both paren
locations (the arena pointer to the inner node is the node's value). -/
structure ParenExpr where
  toExpr : Expr
  inner_expr : Expr
  lparen_loc : Nat
  rparen_loc : Nat
  deriving DecidableEq

/-- `ParenExpr::create`: the constructor copies the inner expression's
value kind and type and spans `ByteSpan(lparen, rparen + 1)`. -/
def ParenExpr.create (inner_expr : Expr) (lparen rparen : Nat) : ParenExpr :=
  { toExpr := { ec := ExprClass.ParenExpr, vk := inner_expr.vk, ty := inner_expr.ty,
                range := { start := lparen, stop := rparen + 1 } }
    inner_expr := inner_expr
    lparen_loc := lparen
    rparen_loc := rparen }

/-- `ArraySubscriptExpr`: an `Expr` plus base, index and the left-bracket
location. -/
structure ArraySubscriptExpr where
  toExpr : Expr
  base : Expr
  idx : Expr
  lbracket_loc : Nat
  deriving DecidableEq

/-- `ArraySubscriptExpr::create`: `cci_expects` demands a pointer-typed
base and a non-pointer-typed index (a failed check is an internal fault,
modelled as `none`); the constructor then spans
`ByteSpan(base->begin_loc(), rbracket_loc + 1)`. -/
def ArraySubscriptExpr.create (base_expr index_expr : Expr) (vk : ExprValueKind)
    (ty : QualType) (lbracket_loc rbracket_loc : Nat) : Option ArraySubscriptExpr :=
  if (base_expr.ty.getAsPointerType).isSome then
    if (index_expr.ty.getAsPointerType).isSome then none
    else
      some { toExpr := { ec := ExprClass.ArraySubscript, vk := vk, ty := ty,
                         range := { start := base_expr.range.start,
                                    stop := rbracket_loc + 1 } }
             base := base_expr
             idx := index_expr
             lbracket_loc := lbracket_loc }
  else none

/-- C1: the exact-text round trip holds for the keyword table but FAILS for
the operator/punctuation table: `"+"` is an entry of `TOKEN_SYMBOLS` (kind
`Plus`), yet tokenizing `"+"` alone yields zero tokens instead of exactly
one `Plus` token — the scanning loop skips runs of special characters
without ever consulting `TOKEN_SYMBOLS`. -/
theorem claim_C1_symbol_round_trip_fails :
    (TokenType.Plus, "+") ∈ TOKEN_SYMBOLS ∧ lexer_tokenize_text 2 "+".data = some [] := by
  decide

/-- C2: longest-match symbol emission FAILS: tokenizing `">>="` yields zero
tokens (not one `BitwiseRightShiftAssign`), and tokenizing `"a>>=3"` yields
only `[Identifier(a), IntegerConstant(3)]` — the `>>=` run is skipped as a
token separator and no operator token is ever emitted. -/
theorem claim_C2_shift_assign_never_emitted :
    lexer_tokenize_text 2 ">>=".data = some [] ∧
    lexer_tokenize_text 4 "a>>=3".data =
      some [⟨TokenType.Identifier, 0, 1⟩, ⟨TokenType.IntegerConstant, 4, 5⟩] := by
  decide

/-- C3: termination FAILS on the one-byte input `"."`: `.` is neither a
literal starter, alphanumeric, whitespace nor special, so
`find_next_token` returns a run starting at the cursor itself and the loop
re-enters the same state; for every amount of fuel the scanning loop is
still running. -/
theorem claim_C3_dot_input_never_terminates (fuel : Nat) :
    lexer_tokenize_text fuel ".".data = none := by
  induction fuel with
  | zero => rfl
  | succ n ih =>
    have step : lexer_tokenize_text (n + 1) ".".data = lexer_tokenize_text n ".".data := rfl
    exact step.trans ih

/-- C4: unterminated-literal recovery FAILS on the one-byte input `"'"`:
`lexer_parse_char_literal` emits no token but returns cursor 2 on a buffer
whose end is 1 (in the source, `std::next` applied to the end iterator), so
scanning resumes PAST the end of the buffer instead of at a whitespace
boundary, and the tokenizer never completes for any amount of fuel. -/
theorem claim_C4_unterminated_char_literal_recovery_fails :
    lexer_parse_char_literal "'".data 0 1 = some ([], 2) ∧
    (∀ fuel : Nat, lexer_tokenize_text fuel "'".data = none) := by
  refine ⟨rfl, fun fuel => ?_⟩
  match fuel with
  | 0 => rfl
  | 1 => rfl
  | n + 2 => rfl

/-- C5: the claim FAILS when the closing quote is the last byte of the
buffer: tokenizing the three-byte input `"'a'"` yields zero tokens (the
check `token.end() == end` misreads the literal as unterminated), while
the same literal followed by a space does produce the expected
`CharConstant` spanning all 3 bytes. -/
theorem claim_C5_literal_closing_at_buffer_end_dropped :
    lexer_tokenize_text 2 "'a'".data = some [] ∧
    lexer_tokenize_text 2 "'a' ".data = some [⟨TokenType.CharConstant, 0, 3⟩] := by
  decide

/-- C6: numeric classification behaves as claimed: `"42"` and `"0x1F"`
yield IntegerConstant, `"3.14"` and `"3.14f"` yield FloatConstant, and on
`"0x1.5"` the embedded `.` cancels integer classification silently
(`is_integer` is false, while it is true for the dot-free `"0x15"`), the
classification falls through to the float rule (`is_float`, which also
rejects), and no malformed-integer token is ever produced. -/
theorem claim_C6_numeric_classification :
    lexer_tokenize_text 2 "42".data = some [⟨TokenType.IntegerConstant, 0, 2⟩] ∧
    lexer_tokenize_text 2 "0x1F".data = some [⟨TokenType.IntegerConstant, 0, 4⟩] ∧
    lexer_tokenize_text 2 "3.14".data = some [⟨TokenType.FloatConstant, 0, 4⟩] ∧
    lexer_tokenize_text 2 "3.14f".data = some [⟨TokenType.FloatConstant, 0, 5⟩] ∧
    (is_integer "0x1.5".data 0 5 = false ∧ is_integer "0x15".data 0 4 = true) ∧
    is_float "0x1.5".data 0 5 = false ∧
    lexer_tokenize_text 2 "0x1.5".data = some [] := by
  decide

/-- C7: `ArraySubscriptExpr::create` enforces its precondition: a
non-pointer base or a pointer index makes the check fail (internal fault,
no node is returned), and when both preconditions hold the returned node's
span runs from the base expression's start location to one past the right
bracket. -/
theorem claim_C7_array_subscript_precondition (base_expr index_expr : Expr)
    (vk : ExprValueKind) (ty : QualType) (lbracket_loc rbracket_loc : Nat) :
    (base_expr.ty.getAsPointerType = none →
       ArraySubscriptExpr.create base_expr index_expr vk ty lbracket_loc rbracket_loc = none) ∧
    ((index_expr.ty.getAsPointerType).isSome = true →
       ArraySubscriptExpr.create base_expr index_expr vk ty lbracket_loc rbracket_loc = none) ∧
    ((base_expr.ty.getAsPointerType).isSome = true →
     index_expr.ty.getAsPointerType = none →
       ∃ node, ArraySubscriptExpr.create base_expr index_expr vk ty lbracket_loc rbracket_loc
           = some node ∧
         node.toExpr.range = { start := base_expr.range.start, stop := rbracket_loc + 1 }) := by
  refine ⟨fun h1 => ?_, fun h2 => ?_, fun h1 h2 => ?_⟩
  · simp [ArraySubscriptExpr.create, h1]
  · simp [ArraySubscriptExpr.create, h2]
  · have hc : ArraySubscriptExpr.create base_expr index_expr vk ty lbracket_loc rbracket_loc
        = some { toExpr := { ec := ExprClass.ArraySubscript, vk := vk, ty := ty,
                             range := { start := base_expr.range.start,
                                        stop := rbracket_loc + 1 } }
                 base := base_expr, idx := index_expr, lbracket_loc := lbracket_loc } := by
      simp [ArraySubscriptExpr.create, h1, h2]
    exact ⟨_, hc, rfl⟩

/-- A sample pointer-typed lvalue expression (for the C7 witness). -/
def sampleBase : Expr :=
  { ec := ExprClass.IntegerLiteral, vk := ExprValueKind.LValue,
    ty := { ty := CType.pointer (CType.builtin 0) }, range := { start := 3, stop := 5 } }

/-- A sample non-pointer rvalue expression (for the C7 witness). -/
def sampleIdx : Expr :=
  { ec := ExprClass.IntegerLiteral, vk := ExprValueKind.RValue,
    ty := { ty := CType.builtin 0 }, range := { start := 6, stop := 7 } }

/-- C7 witness: at concrete nodes, a non-pointer base fails the check, a
pointer index fails the check, and a pointer base with a non-pointer index
yields a node spanning from the base's start (3) to one past the right
bracket (8 + 1 = 9). -/
theorem claim_C7_array_subscript_precondition_witness :
    ArraySubscriptExpr.create sampleIdx sampleIdx ExprValueKind.LValue
      { ty := CType.builtin 0 } 7 8 = none ∧
    ArraySubscriptExpr.create sampleBase sampleBase ExprValueKind.LValue
      { ty := CType.builtin 0 } 7 8 = none ∧
    (∃ node, ArraySubscriptExpr.create sampleBase sampleIdx ExprValueKind.LValue
        { ty := CType.builtin 0 } 7 8 = some node ∧
       node.toExpr.range = { start := 3, stop := 9 }) :=
  ⟨(claim_C7_array_subscript_precondition sampleIdx sampleIdx _ _ 7 8).1 rfl,
   (claim_C7_array_subscript_precondition sampleBase sampleBase _ _ 7 8).2.1 rfl,
   (claim_C7_array_subscript_precondition sampleBase sampleIdx ExprValueKind.LValue
      { ty := CType.builtin 0 } 7 8).2.2 rfl rfl⟩

/-- C8: `ParenExpr::create` returns a node with the inner expression's
value category and type and a span from the left parenthesis to one byte
past the right parenthesis; in particular wrapping an RValue
`IntegerLiteral` yields an RValue `ParenExpr` of the literal's type. -/
theorem claim_C8_paren_inherits (inner_expr : Expr) (lparen rparen : Nat)
    (value : Nat) (ty : QualType) (sp : ByteSpan) :
    ((ParenExpr.create inner_expr lparen rparen).toExpr.vk = inner_expr.vk ∧
     (ParenExpr.create inner_expr lparen rparen).toExpr.ty = inner_expr.ty ∧
     (ParenExpr.create inner_expr lparen rparen).toExpr.range
        = { start := lparen, stop := rparen + 1 }) ∧
    ((ParenExpr.create (IntegerLiteral.create value ty sp).toExpr lparen rparen).toExpr.vk
        = ExprValueKind.RValue ∧
     (ParenExpr.create (IntegerLiteral.create value ty sp).toExpr lparen rparen).toExpr.ty
        = ty) :=
  ⟨⟨rfl, rfl, rfl⟩, ⟨rfl, rfl⟩⟩

/-- C9: `"iffy"` lexes as a single Identifier token spanning the whole
4-byte run and `"if"` lexes as the `If` keyword; `(If, "if")` is a
reserved-table entry while no entry's text equals `"iffy"`, and the lookup
is by exact text over the maximal alphanumeric run. -/
theorem claim_C9_keyword_identifier_boundary :
    lexer_tokenize_text 2 "iffy".data = some [⟨TokenType.Identifier, 0, 4⟩] ∧
    lexer_tokenize_text 2 "if".data = some [⟨TokenType.If, 0, 2⟩] ∧
    (TokenType.If, "if") ∈ TOKEN_RESERVED_NAMES ∧
    ∀ p ∈ TOKEN_RESERVED_NAMES, p.2 ≠ "iffy" := by
  decide

/-- C10: the empty input tokenizes to the empty sequence (for every amount
of fuel the loop exits at once), and each scanning routine called with
`begin = end` returns `end` immediately emitting no token. -/
theorem claim_C10_empty_input (fuel : Nat) (s : List Char) (e : Nat) :
    lexer_tokenize_text (fuel + 1) [] = some [] ∧
    lexer_parse_char_literal s e e = some ([], e) ∧
    lexer_parse_string_literal s e e = some ([], e) ∧
    lexer_parse_constant s e e = some ([], e) ∧
    lexer_parse_identifier s e e = some ([], e) := by
  refine ⟨rfl, ?_, ?_, ?_, ?_⟩ <;>
    simp [lexer_parse_char_literal, lexer_parse_string_literal,
          lexer_parse_constant, lexer_parse_identifier]
